import Mathlib

/-!
Verification of the creational design-pattern examples:
shallow embeddings of `src/Creational/FactoryMethod.cpp`,
`src/Creational/BuilderNPC.cpp`, `src/Creational/AbstractFactory.cpp`
and `src/Creational/AbstractFactoryDB.cpp`, with theorems checking the
spec's testable properties against them.  C++ `double` values are
modelled as real numbers (the formulas' ideal semantics), C++ `int` as
`ℤ`, `std::unique_ptr`/`std::shared_ptr` results as `Option`, and a
throwing constructor as `Except String`.
-/

namespace FactoryMethod

/-- The discriminator `enum class ObjectType`. -/
inductive ObjectType where
  | Circle
  | Square
  | Rectangle
  | Triangle
  | Obround
deriving DecidableEq

/-- The concrete `GameObject` subclasses together with the `double`
fields each one stores (sprite and collider carry no data relevant to
the claims). -/
inductive GameObject where
  | Circle (radius : ℝ)
  | Square (sideLength : ℝ)
  | Rectangle (sideLength sideHeight : ℝ)
  | Triangle (sideLength : ℝ)
  | Obround (sideLength sideHeight : ℝ)

/-- Each subclass's `getArea` method, transcribed branch by branch:
`Circle`: `M_PI * radius * radius`; `Square`: `sideLength * sideLength`;
`Rectangle`: `sideLength * sideHeight`;
`Triangle`: `std::sqrt(3) * 0.5 * sideLength`;
`Obround`:
`M_PI * 0.5 * sideHeight * 0.5 * sideHeight * (sideLength - sideHeight) * (sideHeight)`. -/
noncomputable def getArea : GameObject → ℝ
  | .Circle radius => Real.pi * radius * radius
  | .Square sideLength => sideLength * sideLength
  | .Rectangle sideLength sideHeight => sideLength * sideHeight
  | .Triangle sideLength => Real.sqrt 3 * 0.5 * sideLength
  | .Obround sideLength sideHeight =>
      Real.pi * 0.5 * sideHeight * 0.5 * sideHeight * (sideLength - sideHeight) * sideHeight

/-- Each subclass's `getPerimeter` (named `getCircumference` on `Circle`
and `Triangle`): `Circle`: `2 * M_PI * radius`; `Square`:
`4 * sideLength`; `Rectangle`: `2 * (sideLength + sideHeight)`;
`Triangle`: `3 * sideLength`;
`Obround`: `M_PI * sideHeight * 2 * (sideLength - sideHeight)`. -/
noncomputable def getPerimeter : GameObject → ℝ
  | .Circle radius => 2 * Real.pi * radius
  | .Square sideLength => 4 * sideLength
  | .Rectangle sideLength sideHeight => 2 * (sideLength + sideHeight)
  | .Triangle sideLength => 3 * sideLength
  | .Obround sideLength sideHeight => Real.pi * sideHeight * 2 * (sideLength - sideHeight)

/-- The `Obround` constructor: it throws `std::invalid_argument` with
the message below when `length < height`, and otherwise stores the two
fields. -/
noncomputable def mkObround (length height : ℝ) : Except String GameObject :=
  if length < height then
    Except.error "Length cannot be less than height for an obround"
  else
    Except.ok (GameObject.Obround length height)

/-- The one-size overload
`GameObjectFactory::createObject(ObjectType, double)`:
`Circle`, `Square` and `Triangle` are constructed, every other
discriminator falls to `default: return nullptr`.  No constructor on
this path throws, hence the result is always `Except.ok`. -/
def createObject1 (type : ObjectType) (size : ℝ) : Except String (Option GameObject) :=
  match type with
  | .Circle => .ok (some (.Circle size))
  | .Square => .ok (some (.Square size))
  | .Triangle => .ok (some (.Triangle size))
  | _ => .ok none

/-- The two-size overload
`GameObjectFactory::createObject(ObjectType, double, double)`:
`Rectangle` and `Obround` are constructed (the latter may throw),
every other discriminator falls to `default: return nullptr`. -/
noncomputable def createObject2 (type : ObjectType) (size1 size2 : ℝ) :
    Except String (Option GameObject) :=
  match type with
  | .Rectangle => .ok (some (.Rectangle size1 size2))
  | .Obround => (mkObround size1 size2).map some
  | _ => .ok none

/-- The obround handling in `main`: the handle starts as `nullptr`, the
`try` block assigns the factory result, and the `catch` block leaves the
handle unset. -/
noncomputable def mainObround (length height : ℝ) : Option GameObject :=
  match createObject2 .Obround length height with
  | .ok o => o
  | .error _ => none

end FactoryMethod

namespace FactoryMethod

/-- Claim C1: `createObject(Obround, length, height)` throws an
exception carrying a non-empty human-readable message when
`length < height` (and `main`'s obround handle is then left unset),
and returns a non-null handle when `length >= height`. -/
theorem C1_obround_creation (length height : ℝ) :
    (length < height →
      createObject2 .Obround length height =
        Except.error "Length cannot be less than height for an obround" ∧
      "Length cannot be less than height for an obround" ≠ "" ∧
      mainObround length height = none) ∧
    (height ≤ length →
      createObject2 .Obround length height =
        Except.ok (some (.Obround length height))) := by
  constructor
  · intro hlt
    have hcreate : createObject2 .Obround length height =
        Except.error "Length cannot be less than height for an obround" := by
      simp only [createObject2, mkObround, if_pos hlt, Except.map]
    refine ⟨hcreate, by simp, ?_⟩
    simp only [mainObround, hcreate]
  · intro hle
    simp only [createObject2, mkObround, if_neg (not_lt.mpr hle), Except.map]

/-- Witness for C1 at the concrete inputs (2, 9) (throwing branch) and
(9, 2) (the successful call made in `main`). -/
theorem C1_obround_creation_witness :
    (createObject2 .Obround 2 9 =
        Except.error "Length cannot be less than height for an obround" ∧
      "Length cannot be less than height for an obround" ≠ "" ∧
      mainObround 2 9 = none) ∧
    createObject2 .Obround 9 2 = Except.ok (some (.Obround 9 2)) :=
  ⟨(C1_obround_creation 2 9).1 (by norm_num),
   (C1_obround_creation 9 2).2 (by norm_num)⟩

/-- Claim C2 (code bug): the code's Triangle area at side length 1 is
`sqrt(3) * 0.5`, which differs from the equilateral-triangle formula
`(sqrt(3)/4) * 1^2`, and the code's Obround area and perimeter at
(length, height) = (3, 2) are `2π` and `4π`, which differ from the
stadium formulas `π * (h/2)^2 + (l-h) * h = π + 2` and
`π * h + 2 * (l-h) = 2π + 2`: the code multiplies the circular and
rectangular contributions where the geometry requires their sum. -/
theorem C2_formulas_deviate :
    getArea (.Triangle 1) = Real.sqrt 3 * 0.5 ∧
    Real.sqrt 3 * 0.5 ≠ Real.sqrt 3 / 4 * 1 ^ 2 ∧
    getArea (.Obround 3 2) = 2 * Real.pi ∧
    2 * Real.pi ≠ Real.pi * (2 / 2) ^ 2 + (3 - 2) * 2 ∧
    getPerimeter (.Obround 3 2) = 4 * Real.pi ∧
    4 * Real.pi ≠ Real.pi * 2 + 2 * (3 - 2) := by
  have hs : (0 : ℝ) < Real.sqrt 3 := Real.sqrt_pos.mpr (by norm_num)
  have hpi : (3 : ℝ) < Real.pi := Real.pi_gt_three
  refine ⟨by simp [getArea], ?_, ?_, ?_, ?_, ?_⟩
  · intro h
    rw [one_pow, mul_one] at h
    nlinarith
  · show Real.pi * 0.5 * 2 * 0.5 * 2 * (3 - 2) * 2 = 2 * Real.pi
    ring
  · intro h
    nlinarith
  · show Real.pi * 2 * 2 * (3 - 2) = 4 * Real.pi
    ring
  · intro h
    nlinarith

/-- Claim C3: for all positive `l`, `h`, `createObject(Rectangle, l, h)`
returns a non-null shape with area `l * h` and perimeter `2 * (l + h)`. -/
theorem C3_rectangle_formulas (l h : ℝ) (hl : 0 < l) (hh : 0 < h) :
    ∃ g, createObject2 .Rectangle l h = Except.ok (some g) ∧
      getArea g = l * h ∧ getPerimeter g = 2 * (l + h) :=
  ⟨.Rectangle l h, rfl, rfl, rfl⟩

/-- Witness for C3 at the concrete input (10, 2) used in `main`. -/
theorem C3_rectangle_formulas_witness :
    ∃ g, createObject2 .Rectangle 10 2 = Except.ok (some g) ∧
      getArea g = 10 * 2 ∧ getPerimeter g = 2 * (10 + 2) :=
  C3_rectangle_formulas 10 2 (by norm_num) (by norm_num)

/-- Claim C4: for all positive `r`, `createObject(Circle, r)` returns a
non-null shape with area `π * r^2` and circumference `2 * π * r`
(exact over the real-number semantics of the `double` formulas). -/
theorem C4_circle_formulas (r : ℝ) (hr : 0 < r) :
    ∃ g, createObject1 .Circle r = Except.ok (some g) ∧
      getArea g = Real.pi * r ^ 2 ∧ getPerimeter g = 2 * Real.pi * r := by
  refine ⟨.Circle r, rfl, ?_, rfl⟩
  show Real.pi * r * r = Real.pi * r ^ 2
  ring

/-- Witness for C4 at the concrete input 5 used in `main`. -/
theorem C4_circle_formulas_witness :
    ∃ g, createObject1 .Circle 5 = Except.ok (some g) ∧
      getArea g = Real.pi * 5 ^ 2 ∧ getPerimeter g = 2 * Real.pi * 5 :=
  C4_circle_formulas 5 (by norm_num)

/-- Claim C5: every discriminator/arity combination not matched by a
`case` of the corresponding `createObject` overload returns a null
result and does not throw (the result is `Except.ok none`). -/
theorem C5_unmatched_arity_null :
    (∀ s : ℝ, createObject1 .Rectangle s = Except.ok none ∧
      createObject1 .Obround s = Except.ok none) ∧
    (∀ s1 s2 : ℝ, createObject2 .Circle s1 s2 = Except.ok none ∧
      createObject2 .Square s1 s2 = Except.ok none ∧
      createObject2 .Triangle s1 s2 = Except.ok none) :=
  ⟨fun _ => ⟨rfl, rfl⟩, fun _ _ => ⟨rfl, rfl, rfl⟩⟩

/-- Claim C8: for every `h > 0`, `createObject(Obround, h, h)` succeeds
(the precondition `length >= height` holds), yet both the area and the
perimeter of the returned shape evaluate to exactly 0 — each formula
contains the factor `(sideLength - sideHeight)` — instead of the area
`π * (h/2)^2` (which is nonzero) of the circle the shape degenerates
to. -/
theorem C8_degenerate_obround (h : ℝ) (hpos : 0 < h) :
    createObject2 .Obround h h = Except.ok (some (.Obround h h)) ∧
    getArea (.Obround h h) = 0 ∧
    getPerimeter (.Obround h h) = 0 ∧
    Real.pi * (h / 2) ^ 2 ≠ 0 := by
  refine ⟨?_, ?_, ?_, ?_⟩
  · simp only [createObject2, mkObround, if_neg (lt_irrefl h), Except.map]
  · show Real.pi * 0.5 * h * 0.5 * h * (h - h) * h = 0
    ring
  · show Real.pi * h * 2 * (h - h) = 0
    ring
  · have : 0 < Real.pi * (h / 2) ^ 2 := by positivity
    exact ne_of_gt this

/-- Witness for C8 at the concrete height 2. -/
theorem C8_degenerate_obround_witness :
    createObject2 .Obround 2 2 = Except.ok (some (.Obround 2 2)) ∧
    getArea (.Obround 2 2) = 0 ∧
    getPerimeter (.Obround 2 2) = 0 ∧
    Real.pi * (2 / 2) ^ 2 ≠ 0 :=
  C8_degenerate_obround 2 (by norm_num)

end FactoryMethod

namespace BuilderNPC

/-- Strong-typedef `struct DiceQty { int value; }`. -/
structure DiceQty where
  value : ℤ

/-- Strong-typedef `struct DiceSides { int value; }`. -/
structure DiceSides where
  value : ℤ

/-- `roll(DiceQty, DiceSides)`: sums `qty.value` fresh draws of
`std::uniform_int_distribution<int>(1, sides.value)` applied to a
`std::random_device` (zero loop iterations when `qty.value <= 0`).
The entropy source is modelled by the draw stream `draw`; the
distribution's guarantee that each draw lies in `[1, sides.value]` is
the separate hypothesis `UniformDraws`. -/
def roll (draw : ℕ → ℤ) (qty : DiceQty) (sides : DiceSides) : ℤ :=
  ∑ i ∈ Finset.range qty.value.toNat, draw i

/-- The contract of `uniform_int_distribution(1, sides.value)` (defined
for `sides.value >= 1`): every draw lies in `[1, sides.value]`. -/
def UniformDraws (draw : ℕ → ℤ) (sides : DiceSides) : Prop :=
  ∀ i : ℕ, 1 ≤ draw i ∧ draw i ≤ sides.value

/-- `class Character`: the public data fields. -/
structure Character where
  name : String
  health : ℤ
  armor : String
  weapon : String
  magic : String
  strength : ℤ
  intelligence : ℤ
  wisdom : ℤ
  dexterity : ℤ
  constitution : ℤ
  charisma : ℤ

/-- The character produced by `std::make_shared<Character>()`:
`Character` has no user constructor, so it is value-initialized —
strings empty, ints zero. -/
def valueInitCharacter : Character :=
  { name := "", health := 0, armor := "", weapon := "", magic := "",
    strength := 0, intelligence := 0, wisdom := 0, dexterity := 0,
    constitution := 0, charisma := 0 }

/-- `class HeroBuilder`: holds `std::shared_ptr<Character> character`
(nullable, hence `Option`). -/
structure HeroBuilder where
  character : Option Character

/-- `HeroBuilder::reset`: `character = std::make_shared<Character>()`. -/
def HeroBuilder.reset (_ : HeroBuilder) : HeroBuilder :=
  { character := some valueInitCharacter }

/-- The `HeroBuilder` constructor: the member starts default-constructed
(null) and the constructor body calls `this->reset()`. -/
def HeroBuilder.init : HeroBuilder :=
  HeroBuilder.reset { character := none }

/-- `HeroBuilder::buildCharacterAttributes`: assigns every field of the
held character in one fixed sequence; each stat uses its own `roll`
call (streams `d1` .. `d6` model the six fresh entropy sources). -/
def HeroBuilder.buildCharacterAttributes (d1 d2 d3 d4 d5 d6 : ℕ → ℤ)
    (b : HeroBuilder) : HeroBuilder :=
  { character := b.character.map fun c =>
      { c with
        name := "Link"
        health := 3
        armor := "Green Tunic"
        weapon := "Fighter Sword"
        magic := "Latern"
        strength := roll d1 ⟨1⟩ ⟨6⟩ + 12
        intelligence := roll d2 ⟨1⟩ ⟨6⟩ + 9
        wisdom := roll d3 ⟨1⟩ ⟨4⟩ + 8
        dexterity := roll d4 ⟨1⟩ ⟨8⟩ + 10
        constitution := roll d5 ⟨1⟩ ⟨8⟩ + 10
        charisma := roll d6 ⟨1⟩ ⟨6⟩ + 12 } }

/-- `HeroBuilder::getCharacter`: returns the held handle. -/
def HeroBuilder.getCharacter (b : HeroBuilder) : Option Character :=
  b.character

/-- `class MonsterBuilder`. -/
structure MonsterBuilder where
  character : Option Character

/-- `MonsterBuilder::reset`. -/
def MonsterBuilder.reset (_ : MonsterBuilder) : MonsterBuilder :=
  { character := some valueInitCharacter }

/-- The `MonsterBuilder` constructor (calls `reset`). -/
def MonsterBuilder.init : MonsterBuilder :=
  MonsterBuilder.reset { character := none }

/-- `MonsterBuilder::buildCharacterAttributes`. -/
def MonsterBuilder.buildCharacterAttributes (d1 d2 d3 d4 d5 d6 : ℕ → ℤ)
    (b : MonsterBuilder) : MonsterBuilder :=
  { character := b.character.map fun c =>
      { c with
        name := "Moblin"
        health := 2
        armor := "None"
        weapon := "Spear"
        magic := "None"
        strength := roll d1 ⟨1⟩ ⟨4⟩ + 15
        intelligence := roll d2 ⟨1⟩ ⟨4⟩ + 2
        wisdom := roll d3 ⟨1⟩ ⟨4⟩ + 2
        dexterity := roll d4 ⟨3⟩ ⟨6⟩
        constitution := roll d5 ⟨1⟩ ⟨8⟩ + 10
        charisma := roll d6 ⟨1⟩ ⟨4⟩ + 2 } }

/-- `MonsterBuilder::getCharacter`. -/
def MonsterBuilder.getCharacter (b : MonsterBuilder) : Option Character :=
  b.character

/-- `class NPCBuilder`. -/
structure NPCBuilder where
  character : Option Character

/-- `NPCBuilder::reset`. -/
def NPCBuilder.reset (_ : NPCBuilder) : NPCBuilder :=
  { character := some valueInitCharacter }

/-- The `NPCBuilder` constructor (calls `reset`). -/
def NPCBuilder.init : NPCBuilder :=
  NPCBuilder.reset { character := none }

/-- `NPCBuilder::buildCharacterAttributes`. -/
def NPCBuilder.buildCharacterAttributes (d1 d2 d3 d4 d5 d6 : ℕ → ℤ)
    (b : NPCBuilder) : NPCBuilder :=
  { character := b.character.map fun c =>
      { c with
        name := "Pricess Zelda"
        health := 12
        armor := "Sheika Robes"
        weapon := "Gleaming Rapier"
        magic := "Teleport"
        strength := roll d1 ⟨1⟩ ⟨6⟩ + 8
        intelligence := roll d2 ⟨1⟩ ⟨6⟩ + 12
        wisdom := roll d3 ⟨1⟩ ⟨4⟩ + 14
        dexterity := roll d4 ⟨1⟩ ⟨6⟩ + 12
        constitution := roll d5 ⟨2⟩ ⟨6⟩ + 6
        charisma := roll d6 ⟨1⟩ ⟨4⟩ + 14 } }

/-- `NPCBuilder::getCharacter`. -/
def NPCBuilder.getCharacter (b : NPCBuilder) : Option Character :=
  b.character

/-- States a `HeroBuilder` can be in during its lifetime: freshly
constructed, after a `reset`, or after a `buildCharacterAttributes`. -/
inductive HeroBuilder.Reachable : HeroBuilder → Prop where
  | init : HeroBuilder.Reachable HeroBuilder.init
  | reset : ∀ b, HeroBuilder.Reachable b → HeroBuilder.Reachable b.reset
  | build : ∀ b d1 d2 d3 d4 d5 d6, HeroBuilder.Reachable b →
      HeroBuilder.Reachable (b.buildCharacterAttributes d1 d2 d3 d4 d5 d6)

/-- States a `MonsterBuilder` can be in during its lifetime. -/
inductive MonsterBuilder.Reachable : MonsterBuilder → Prop where
  | init : MonsterBuilder.Reachable MonsterBuilder.init
  | reset : ∀ b, MonsterBuilder.Reachable b → MonsterBuilder.Reachable b.reset
  | build : ∀ b d1 d2 d3 d4 d5 d6, MonsterBuilder.Reachable b →
      MonsterBuilder.Reachable (b.buildCharacterAttributes d1 d2 d3 d4 d5 d6)

/-- States an `NPCBuilder` can be in during its lifetime. -/
inductive NPCBuilder.Reachable : NPCBuilder → Prop where
  | init : NPCBuilder.Reachable NPCBuilder.init
  | reset : ∀ b, NPCBuilder.Reachable b → NPCBuilder.Reachable b.reset
  | build : ∀ b d1 d2 d3 d4 d5 d6, NPCBuilder.Reachable b →
      NPCBuilder.Reachable (b.buildCharacterAttributes d1 d2 d3 d4 d5 d6)

/-- The summation loop of `roll` returns a value between `qty.value`
(all draws 1) and `qty.value * sides.value` (all draws maximal) when
`qty.value >= 0` and every draw respects the distribution contract. -/
theorem roll_bounds (draw : ℕ → ℤ) (qty : DiceQty) (sides : DiceSides)
    (hd : UniformDraws draw sides) (hq : 0 ≤ qty.value) :
    qty.value ≤ roll draw qty sides ∧ roll draw qty sides ≤ qty.value * sides.value := by
  have hlow : (∑ _i ∈ Finset.range qty.value.toNat, (1 : ℤ)) ≤
      ∑ i ∈ Finset.range qty.value.toNat, draw i :=
    Finset.sum_le_sum fun i _ => (hd i).1
  have hhigh : (∑ i ∈ Finset.range qty.value.toNat, draw i) ≤
      ∑ _i ∈ Finset.range qty.value.toNat, sides.value :=
    Finset.sum_le_sum fun i _ => (hd i).2
  simp only [Finset.sum_const, Finset.card_range, nsmul_eq_mul, mul_one] at hlow hhigh
  rw [Int.toNat_of_nonneg hq] at hlow hhigh
  exact ⟨by simpa [roll] using hlow, by simpa [roll, mul_comm] using hhigh⟩

end BuilderNPC

namespace BuilderNPC

/-- Claim C9: with `sides.value >= 1`, `roll` returns exactly 0 whenever
`qty.value <= 0` (the loop runs zero times), and for `qty.value >= 0`
its result — a sum of exactly `qty.value` draws each in
`[1, sides.value]` — lies between `qty.value` and
`qty.value * sides.value`. -/
theorem C9_roll_behavior (draw : ℕ → ℤ) (qty : DiceQty) (sides : DiceSides) :
    (1 ≤ sides.value → qty.value ≤ 0 → roll draw qty sides = 0) ∧
    (0 ≤ qty.value → UniformDraws draw sides →
      qty.value ≤ roll draw qty sides ∧ roll draw qty sides ≤ qty.value * sides.value) := by
  constructor
  · intro _ hq
    simp [roll, Int.toNat_of_nonpos hq]
  · intro hq hd
    exact roll_bounds draw qty sides hd hq

/-- Witness for C9 at a constant all-ones draw stream, with
`qty = -1` (zero-iteration branch) and `qty = 2` (bounds branch). -/
theorem C9_roll_behavior_witness :
    roll (fun _ => 1) ⟨-1⟩ ⟨6⟩ = 0 ∧
    ((2 : ℤ) ≤ roll (fun _ => 1) ⟨2⟩ ⟨6⟩ ∧
      roll (fun _ => 1) ⟨2⟩ ⟨6⟩ ≤ 2 * 6) :=
  ⟨(C9_roll_behavior (fun _ => 1) ⟨-1⟩ ⟨6⟩).1 (by norm_num) (by norm_num),
   (C9_roll_behavior (fun _ => 1) ⟨2⟩ ⟨6⟩).2 (by norm_num)
     (fun _ => ⟨le_refl 1, by norm_num⟩)⟩

/-- Claim C7: for every builder holding a character, one call to
`buildCharacterAttributes` (under the uniform-distribution contract on
each entropy stream) yields a character with a non-empty name, positive
health, and each of the six stats inside the reachable range of its
`roll(count, sides) + modifier` expression. -/
theorem C7_build_ranges :
    (∀ (d1 d2 d3 d4 d5 d6 : ℕ → ℤ) (b : HeroBuilder) (c0 : Character),
      b.character = some c0 →
      UniformDraws d1 ⟨6⟩ → UniformDraws d2 ⟨6⟩ → UniformDraws d3 ⟨4⟩ →
      UniformDraws d4 ⟨8⟩ → UniformDraws d5 ⟨8⟩ → UniformDraws d6 ⟨6⟩ →
      ∃ c, (b.buildCharacterAttributes d1 d2 d3 d4 d5 d6).getCharacter = some c ∧
        c.name ≠ "" ∧ 0 < c.health ∧
        13 ≤ c.strength ∧ c.strength ≤ 18 ∧
        10 ≤ c.intelligence ∧ c.intelligence ≤ 15 ∧
        9 ≤ c.wisdom ∧ c.wisdom ≤ 12 ∧
        11 ≤ c.dexterity ∧ c.dexterity ≤ 18 ∧
        11 ≤ c.constitution ∧ c.constitution ≤ 18 ∧
        13 ≤ c.charisma ∧ c.charisma ≤ 18) ∧
    (∀ (d1 d2 d3 d4 d5 d6 : ℕ → ℤ) (b : MonsterBuilder) (c0 : Character),
      b.character = some c0 →
      UniformDraws d1 ⟨4⟩ → UniformDraws d2 ⟨4⟩ → UniformDraws d3 ⟨4⟩ →
      UniformDraws d4 ⟨6⟩ → UniformDraws d5 ⟨8⟩ → UniformDraws d6 ⟨4⟩ →
      ∃ c, (b.buildCharacterAttributes d1 d2 d3 d4 d5 d6).getCharacter = some c ∧
        c.name ≠ "" ∧ 0 < c.health ∧
        16 ≤ c.strength ∧ c.strength ≤ 19 ∧
        3 ≤ c.intelligence ∧ c.intelligence ≤ 6 ∧
        3 ≤ c.wisdom ∧ c.wisdom ≤ 6 ∧
        3 ≤ c.dexterity ∧ c.dexterity ≤ 18 ∧
        11 ≤ c.constitution ∧ c.constitution ≤ 18 ∧
        3 ≤ c.charisma ∧ c.charisma ≤ 6) ∧
    (∀ (d1 d2 d3 d4 d5 d6 : ℕ → ℤ) (b : NPCBuilder) (c0 : Character),
      b.character = some c0 →
      UniformDraws d1 ⟨6⟩ → UniformDraws d2 ⟨6⟩ → UniformDraws d3 ⟨4⟩ →
      UniformDraws d4 ⟨6⟩ → UniformDraws d5 ⟨6⟩ → UniformDraws d6 ⟨4⟩ →
      ∃ c, (b.buildCharacterAttributes d1 d2 d3 d4 d5 d6).getCharacter = some c ∧
        c.name ≠ "" ∧ 0 < c.health ∧
        9 ≤ c.strength ∧ c.strength ≤ 14 ∧
        13 ≤ c.intelligence ∧ c.intelligence ≤ 18 ∧
        15 ≤ c.wisdom ∧ c.wisdom ≤ 18 ∧
        13 ≤ c.dexterity ∧ c.dexterity ≤ 18 ∧
        8 ≤ c.constitution ∧ c.constitution ≤ 18 ∧
        15 ≤ c.charisma ∧ c.charisma ≤ 18) := by
  refine ⟨?_, ?_, ?_⟩
  · intro d1 d2 d3 d4 d5 d6 b c0 hb hd1 hd2 hd3 hd4 hd5 hd6
    obtain ⟨l1, u1⟩ := roll_bounds d1 ⟨1⟩ ⟨6⟩ hd1 (by norm_num)
    obtain ⟨l2, u2⟩ := roll_bounds d2 ⟨1⟩ ⟨6⟩ hd2 (by norm_num)
    obtain ⟨l3, u3⟩ := roll_bounds d3 ⟨1⟩ ⟨4⟩ hd3 (by norm_num)
    obtain ⟨l4, u4⟩ := roll_bounds d4 ⟨1⟩ ⟨8⟩ hd4 (by norm_num)
    obtain ⟨l5, u5⟩ := roll_bounds d5 ⟨1⟩ ⟨8⟩ hd5 (by norm_num)
    obtain ⟨l6, u6⟩ := roll_bounds d6 ⟨1⟩ ⟨6⟩ hd6 (by norm_num)
    refine ⟨_, by simp only [HeroBuilder.buildCharacterAttributes,
      HeroBuilder.getCharacter, hb, Option.map_some']; exact rfl, ?_⟩
    refine ⟨by simp, by norm_num, ?_, ?_, ?_, ?_, ?_, ?_, ?_, ?_, ?_, ?_, ?_, ?_⟩
    all_goals dsimp only
    all_goals simp only [DiceQty.value, DiceSides.value] at *
    all_goals linarith
  · intro d1 d2 d3 d4 d5 d6 b c0 hb hd1 hd2 hd3 hd4 hd5 hd6
    obtain ⟨l1, u1⟩ := roll_bounds d1 ⟨1⟩ ⟨4⟩ hd1 (by norm_num)
    obtain ⟨l2, u2⟩ := roll_bounds d2 ⟨1⟩ ⟨4⟩ hd2 (by norm_num)
    obtain ⟨l3, u3⟩ := roll_bounds d3 ⟨1⟩ ⟨4⟩ hd3 (by norm_num)
    obtain ⟨l4, u4⟩ := roll_bounds d4 ⟨3⟩ ⟨6⟩ hd4 (by norm_num)
    obtain ⟨l5, u5⟩ := roll_bounds d5 ⟨1⟩ ⟨8⟩ hd5 (by norm_num)
    obtain ⟨l6, u6⟩ := roll_bounds d6 ⟨1⟩ ⟨4⟩ hd6 (by norm_num)
    refine ⟨_, by simp only [MonsterBuilder.buildCharacterAttributes,
      MonsterBuilder.getCharacter, hb, Option.map_some']; exact rfl, ?_⟩
    refine ⟨by simp, by norm_num, ?_, ?_, ?_, ?_, ?_, ?_, ?_, ?_, ?_, ?_, ?_, ?_⟩
    all_goals dsimp only
    all_goals simp only [DiceQty.value, DiceSides.value] at *
    all_goals linarith
  · intro d1 d2 d3 d4 d5 d6 b c0 hb hd1 hd2 hd3 hd4 hd5 hd6
    obtain ⟨l1, u1⟩ := roll_bounds d1 ⟨1⟩ ⟨6⟩ hd1 (by norm_num)
    obtain ⟨l2, u2⟩ := roll_bounds d2 ⟨1⟩ ⟨6⟩ hd2 (by norm_num)
    obtain ⟨l3, u3⟩ := roll_bounds d3 ⟨1⟩ ⟨4⟩ hd3 (by norm_num)
    obtain ⟨l4, u4⟩ := roll_bounds d4 ⟨1⟩ ⟨6⟩ hd4 (by norm_num)
    obtain ⟨l5, u5⟩ := roll_bounds d5 ⟨2⟩ ⟨6⟩ hd5 (by norm_num)
    obtain ⟨l6, u6⟩ := roll_bounds d6 ⟨1⟩ ⟨4⟩ hd6 (by norm_num)
    refine ⟨_, by simp only [NPCBuilder.buildCharacterAttributes,
      NPCBuilder.getCharacter, hb, Option.map_some']; exact rfl, ?_⟩
    refine ⟨by simp, by norm_num, ?_, ?_, ?_, ?_, ?_, ?_, ?_, ?_, ?_, ?_, ?_, ?_⟩
    all_goals dsimp only
    all_goals simp only [DiceQty.value, DiceSides.value] at *
    all_goals linarith

end BuilderNPC

namespace BuilderNPC

/-- Witness for C7: each of the three builders, freshly constructed,
built with all-ones draw streams. -/
theorem C7_build_ranges_witness :
    (∃ c, (HeroBuilder.init.buildCharacterAttributes (fun _ => 1) (fun _ => 1)
        (fun _ => 1) (fun _ => 1) (fun _ => 1) (fun _ => 1)).getCharacter = some c ∧
      c.name ≠ "" ∧ 0 < c.health ∧
      13 ≤ c.strength ∧ c.strength ≤ 18 ∧
      10 ≤ c.intelligence ∧ c.intelligence ≤ 15 ∧
      9 ≤ c.wisdom ∧ c.wisdom ≤ 12 ∧
      11 ≤ c.dexterity ∧ c.dexterity ≤ 18 ∧
      11 ≤ c.constitution ∧ c.constitution ≤ 18 ∧
      13 ≤ c.charisma ∧ c.charisma ≤ 18) ∧
    (∃ c, (MonsterBuilder.init.buildCharacterAttributes (fun _ => 1) (fun _ => 1)
        (fun _ => 1) (fun _ => 1) (fun _ => 1) (fun _ => 1)).getCharacter = some c ∧
      c.name ≠ "" ∧ 0 < c.health ∧
      16 ≤ c.strength ∧ c.strength ≤ 19 ∧
      3 ≤ c.intelligence ∧ c.intelligence ≤ 6 ∧
      3 ≤ c.wisdom ∧ c.wisdom ≤ 6 ∧
      3 ≤ c.dexterity ∧ c.dexterity ≤ 18 ∧
      11 ≤ c.constitution ∧ c.constitution ≤ 18 ∧
      3 ≤ c.charisma ∧ c.charisma ≤ 6) ∧
    (∃ c, (NPCBuilder.init.buildCharacterAttributes (fun _ => 1) (fun _ => 1)
        (fun _ => 1) (fun _ => 1) (fun _ => 1) (fun _ => 1)).getCharacter = some c ∧
      c.name ≠ "" ∧ 0 < c.health ∧
      9 ≤ c.strength ∧ c.strength ≤ 14 ∧
      13 ≤ c.intelligence ∧ c.intelligence ≤ 18 ∧
      15 ≤ c.wisdom ∧ c.wisdom ≤ 18 ∧
      13 ≤ c.dexterity ∧ c.dexterity ≤ 18 ∧
      8 ≤ c.constitution ∧ c.constitution ≤ 18 ∧
      15 ≤ c.charisma ∧ c.charisma ≤ 18) :=
  ⟨C7_build_ranges.1 (fun _ => 1) (fun _ => 1) (fun _ => 1) (fun _ => 1)
      (fun _ => 1) (fun _ => 1) HeroBuilder.init valueInitCharacter rfl
      (fun _ => ⟨le_refl 1, by norm_num⟩) (fun _ => ⟨le_refl 1, by norm_num⟩)
      (fun _ => ⟨le_refl 1, by norm_num⟩) (fun _ => ⟨le_refl 1, by norm_num⟩)
      (fun _ => ⟨le_refl 1, by norm_num⟩) (fun _ => ⟨le_refl 1, by norm_num⟩),
   C7_build_ranges.2.1 (fun _ => 1) (fun _ => 1) (fun _ => 1) (fun _ => 1)
      (fun _ => 1) (fun _ => 1) MonsterBuilder.init valueInitCharacter rfl
      (fun _ => ⟨le_refl 1, by norm_num⟩) (fun _ => ⟨le_refl 1, by norm_num⟩)
      (fun _ => ⟨le_refl 1, by norm_num⟩) (fun _ => ⟨le_refl 1, by norm_num⟩)
      (fun _ => ⟨le_refl 1, by norm_num⟩) (fun _ => ⟨le_refl 1, by norm_num⟩),
   C7_build_ranges.2.2 (fun _ => 1) (fun _ => 1) (fun _ => 1) (fun _ => 1)
      (fun _ => 1) (fun _ => 1) NPCBuilder.init valueInitCharacter rfl
      (fun _ => ⟨le_refl 1, by norm_num⟩) (fun _ => ⟨le_refl 1, by norm_num⟩)
      (fun _ => ⟨le_refl 1, by norm_num⟩) (fun _ => ⟨le_refl 1, by norm_num⟩)
      (fun _ => ⟨le_refl 1, by norm_num⟩) (fun _ => ⟨le_refl 1, by norm_num⟩)⟩

/-- Claim C10: for each of the three builders, the handle is non-null
(and holds the value-initialized character — strings empty, ints zero)
immediately after construction and after every `reset`, and
`getCharacter` never returns null in any state reachable during the
builder's lifetime. -/
theorem C10_handle_never_null :
    (HeroBuilder.init.getCharacter = some valueInitCharacter ∧
      (∀ b : HeroBuilder, b.reset.getCharacter = some valueInitCharacter) ∧
      (∀ b : HeroBuilder, b.Reachable → b.getCharacter ≠ none)) ∧
    (MonsterBuilder.init.getCharacter = some valueInitCharacter ∧
      (∀ b : MonsterBuilder, b.reset.getCharacter = some valueInitCharacter) ∧
      (∀ b : MonsterBuilder, b.Reachable → b.getCharacter ≠ none)) ∧
    (NPCBuilder.init.getCharacter = some valueInitCharacter ∧
      (∀ b : NPCBuilder, b.reset.getCharacter = some valueInitCharacter) ∧
      (∀ b : NPCBuilder, b.Reachable → b.getCharacter ≠ none)) ∧
    (valueInitCharacter.name = "" ∧ valueInitCharacter.armor = "" ∧
      valueInitCharacter.weapon = "" ∧ valueInitCharacter.magic = "" ∧
      valueInitCharacter.health = 0 ∧ valueInitCharacter.strength = 0 ∧
      valueInitCharacter.intelligence = 0 ∧ valueInitCharacter.wisdom = 0 ∧
      valueInitCharacter.dexterity = 0 ∧ valueInitCharacter.constitution = 0 ∧
      valueInitCharacter.charisma = 0) := by
  refine ⟨⟨rfl, fun b => rfl, ?_⟩, ⟨rfl, fun b => rfl, ?_⟩, ⟨rfl, fun b => rfl, ?_⟩,
    ⟨rfl, rfl, rfl, rfl, rfl, rfl, rfl, rfl, rfl, rfl, rfl⟩⟩
  · intro b hb
    induction hb with
    | init => simp [HeroBuilder.getCharacter, HeroBuilder.init, HeroBuilder.reset]
    | reset b _ _ => simp [HeroBuilder.getCharacter, HeroBuilder.reset]
    | build b d1 d2 d3 d4 d5 d6 _ ih =>
        cases hch : b.character with
        | none => exact absurd hch ih
        | some c =>
            simp [HeroBuilder.getCharacter, HeroBuilder.buildCharacterAttributes, hch]
  · intro b hb
    induction hb with
    | init => simp [MonsterBuilder.getCharacter, MonsterBuilder.init, MonsterBuilder.reset]
    | reset b _ _ => simp [MonsterBuilder.getCharacter, MonsterBuilder.reset]
    | build b d1 d2 d3 d4 d5 d6 _ ih =>
        cases hch : b.character with
        | none => exact absurd hch ih
        | some c =>
            simp [MonsterBuilder.getCharacter, MonsterBuilder.buildCharacterAttributes, hch]
  · intro b hb
    induction hb with
    | init => simp [NPCBuilder.getCharacter, NPCBuilder.init, NPCBuilder.reset]
    | reset b _ _ => simp [NPCBuilder.getCharacter, NPCBuilder.reset]
    | build b d1 d2 d3 d4 d5 d6 _ ih =>
        cases hch : b.character with
        | none => exact absurd hch ih
        | some c =>
            simp [NPCBuilder.getCharacter, NPCBuilder.buildCharacterAttributes, hch]

/-- Witness for C10: the reachability hypothesis discharged at the
freshly constructed builders. -/
theorem C10_handle_never_null_witness :
    HeroBuilder.init.getCharacter ≠ none ∧
    MonsterBuilder.init.getCharacter ≠ none ∧
    NPCBuilder.init.getCharacter ≠ none :=
  ⟨C10_handle_never_null.1.2.2 HeroBuilder.init HeroBuilder.Reachable.init,
   C10_handle_never_null.2.1.2.2 MonsterBuilder.init MonsterBuilder.Reachable.init,
   C10_handle_never_null.2.2.1.2.2 NPCBuilder.init NPCBuilder.Reachable.init⟩

end BuilderNPC

namespace AbstractFactory

/-- The platform families of the cross-platform UI example (selected by
the preprocessor flags `WINDOWS` / `LINUX` / default MacOS). -/
inductive Platform where
  | Windows
  | Linux
  | MacOS
deriving DecidableEq

/-- The concrete subclasses of the abstract `Button` product. -/
inductive Button where
  | WindowsButton
  | LinuxButton
  | MacOSButton
deriving DecidableEq

/-- The concrete subclasses of the abstract `Menu` product. -/
inductive Menu where
  | WindowsMenu
  | LinuxMenu
  | MacOSMenu
deriving DecidableEq

/-- The concrete subclasses of the abstract `Dialog` product. -/
inductive Dialog where
  | WindowsDialog
  | LinuxDialog
  | MacOSDialog
deriving DecidableEq

/-- The concrete subclasses of the abstract `GUIFactory`. -/
inductive GUIFactory where
  | WindowsFactory
  | LinuxFactory
  | MacOSFactory
deriving DecidableEq

/-- The `createButton` override of each concrete factory. -/
def createButton : GUIFactory → Button
  | .WindowsFactory => .WindowsButton
  | .LinuxFactory => .LinuxButton
  | .MacOSFactory => .MacOSButton

/-- The `createMenu` override of each concrete factory. -/
def createMenu : GUIFactory → Menu
  | .WindowsFactory => .WindowsMenu
  | .LinuxFactory => .LinuxMenu
  | .MacOSFactory => .MacOSMenu

/-- The `createDialog` override of each concrete factory. -/
def createDialog : GUIFactory → Dialog
  | .WindowsFactory => .WindowsDialog
  | .LinuxFactory => .LinuxDialog
  | .MacOSFactory => .MacOSDialog

/-- The platform family a concrete button variant belongs to. -/
def Button.platform : Button → Platform
  | .WindowsButton => .Windows
  | .LinuxButton => .Linux
  | .MacOSButton => .MacOS

/-- The platform family a concrete menu variant belongs to. -/
def Menu.platform : Menu → Platform
  | .WindowsMenu => .Windows
  | .LinuxMenu => .Linux
  | .MacOSMenu => .MacOS

/-- The platform family a concrete dialog variant belongs to. -/
def Dialog.platform : Dialog → Platform
  | .WindowsDialog => .Windows
  | .LinuxDialog => .Linux
  | .MacOSDialog => .MacOS

/-- The platform family a concrete factory serves. -/
def GUIFactory.platform : GUIFactory → Platform
  | .WindowsFactory => .Windows
  | .LinuxFactory => .Linux
  | .MacOSFactory => .MacOS

end AbstractFactory

namespace AbstractFactoryDB

/-- The database vendors of the database-connectivity example (selected
by the preprocessor flags `ORACLE` / `POSTGRES` / default MySQL). -/
inductive Vendor where
  | MySQL
  | PostgreSQL
  | Oracle
deriving DecidableEq

/-- The concrete subclasses of the abstract `DatabaseConnection`. -/
inductive DatabaseConnection where
  | MySQLConnection
  | PostgreSQLConnection
  | OracleConnection
deriving DecidableEq

/-- The concrete subclasses of the abstract `DatabaseCommand`. -/
inductive DatabaseCommand where
  | MySQLCommand
  | PostgreSQLCommand
  | OracleCommand
deriving DecidableEq

/-- The concrete subclasses of the abstract `DatabaseFactory`. -/
inductive DatabaseFactory where
  | MySQLFactory
  | PostgreSQLFactory
  | OracleFactory
deriving DecidableEq

/-- The `createConnection` override of each concrete factory. -/
def createConnection : DatabaseFactory → DatabaseConnection
  | .MySQLFactory => .MySQLConnection
  | .PostgreSQLFactory => .PostgreSQLConnection
  | .OracleFactory => .OracleConnection

/-- The `createCommand` override of each concrete factory. -/
def createCommand : DatabaseFactory → DatabaseCommand
  | .MySQLFactory => .MySQLCommand
  | .PostgreSQLFactory => .PostgreSQLCommand
  | .OracleFactory => .OracleCommand

/-- The vendor a concrete connection variant belongs to. -/
def DatabaseConnection.vendor : DatabaseConnection → Vendor
  | .MySQLConnection => .MySQL
  | .PostgreSQLConnection => .PostgreSQL
  | .OracleConnection => .Oracle

/-- The vendor a concrete command variant belongs to. -/
def DatabaseCommand.vendor : DatabaseCommand → Vendor
  | .MySQLCommand => .MySQL
  | .PostgreSQLCommand => .PostgreSQL
  | .OracleCommand => .Oracle

/-- The vendor a concrete factory serves. -/
def DatabaseFactory.vendor : DatabaseFactory → Vendor
  | .MySQLFactory => .MySQL
  | .PostgreSQLFactory => .PostgreSQL
  | .OracleFactory => .Oracle

end AbstractFactoryDB

/-- Claim C6: in both abstract-factory examples every concrete factory
produces products of one single family — each GUI factory's button,
menu and dialog belong to that factory's platform, and each database
factory's connection and command belong to that factory's vendor. -/
theorem C6_factory_family_coherence :
    (∀ f : AbstractFactory.GUIFactory,
      (AbstractFactory.createButton f).platform = f.platform ∧
      (AbstractFactory.createMenu f).platform = f.platform ∧
      (AbstractFactory.createDialog f).platform = f.platform) ∧
    (∀ f : AbstractFactoryDB.DatabaseFactory,
      (AbstractFactoryDB.createConnection f).vendor = f.vendor ∧
      (AbstractFactoryDB.createCommand f).vendor = f.vendor) := by
  constructor
  · intro f
    cases f <;> exact ⟨rfl, rfl, rfl⟩
  · intro f
    cases f <;> exact ⟨rfl, rfl⟩
